import Mathlib

/-!
Shallow embedding of the duolingo-card worker (src/src/index.ts) and of the
makeSafeId helper from the companion card worker in the same repository.
Machine integers of the source are modelled as `Int`/`Nat`; JS strings as
`String`; absent JSON fields as `Option`.
-/

namespace DuolingoCard

/-- JS apostrophe character, written by code point. -/
def aposChar : Char := Char.ofNat 39

/- =====================
 * Types (src/src/index.ts, Duolingo worker)
 * ===================== -/

structure DuolingoCourse where
  learningLanguage : Option String
  fromLanguage : Option String
  points : Option Int
  xp : Option Int
deriving DecidableEq

structure DuolingoUser where
  username : String
  name : Option String
  picture : String
  streak : Option Int
  languages : Option (List DuolingoCourse)
  courses : Option (List DuolingoCourse)
deriving DecidableEq

structure DuolingoApiResponse where
  users : Option (List DuolingoUser)
deriving DecidableEq

/-- One entry of the `flags` array built by `resolveCourses`. -/
structure Flag where
  code : String
  xp : Int
  special : Bool
deriving DecidableEq

structure HttpResponse where
  status : Nat
  body : String
deriving DecidableEq

/- =====================
 * Utils (src/src/index.ts)
 * ===================== -/

/-- `escapeXml`: per-character replacement performed by
`str.replace(/[<>&"']/g, ...)`. -/
def escapeChar (c : Char) : String :=
  if c == '<' then "&lt;"
  else if c == '>' then "&gt;"
  else if c == '&' then "&amp;"
  else if c == '"' then "&quot;"
  else if c == aposChar then "&apos;"
  else String.singleton c

def escapeXml (s : String) : String :=
  String.join (s.data.map escapeChar)

/-- Digits of a natural number with a comma inserted every three digits from
the right, as `Intl.NumberFormat('en-US')` renders integers.  The input list
is the reversed digit list. -/
def commaRev : List Char → List Char
  | a :: b :: c :: d :: rest => a :: b :: c :: ',' :: commaRev (d :: rest)
  | l => l

/-- `formatNumber`: `new Intl.NumberFormat('en-US').format(n)` on integers. -/
def formatNumber (n : Int) : String :=
  (if n < 0 then "-" else "") ++
    String.mk (commaRev (toString n.natAbs).data.reverse).reverse

def base64Chars : List Char :=
  "ABCDEFGHIJKLMNOPQRSTUVWXYZabcdefghijklmnopqrstuvwxyz0123456789+/".data

def b64Char (n : Nat) : Char := base64Chars.getD n (Char.ofNat 65)

/-- `btoa` on a byte sequence. -/
def btoa : List Nat → String
  | [] => ""
  | [a] =>
    String.mk [b64Char (a / 4), b64Char (a % 4 * 16)] ++ "=="
  | [a, b] =>
    String.mk [b64Char (a / 4), b64Char (a % 4 * 16 + b / 16),
      b64Char (b % 16 * 4)] ++ "="
  | a :: b :: c :: rest =>
    String.mk [b64Char (a / 4), b64Char (a % 4 * 16 + b / 16),
      b64Char (b % 16 * 4 + c / 64), b64Char (c % 64)] ++ btoa rest

/-- `toBase64(buf, mime)`. -/
def toBase64 (buf : List Nat) (mime : String) : String :=
  "data:" ++ mime ++ ";base64," ++ btoa buf

/- =====================
 * Fetch (src/src/index.ts)
 * ===================== -/

/-- `fetchUser`: the network interaction is abstracted as the already-parsed
outcome of the upstream call — `none` models a non-ok HTTP response, `some
json` an ok response with parsed body.  The function then follows the source:
throw `User not found` on non-ok responses and when `json.users?.[0]` is
absent. -/
def fetchUser (res : Option DuolingoApiResponse) : Except String DuolingoUser :=
  match res with
  | none => Except.error "User not found"
  | some json =>
    match json.users with
    | none => Except.error "User not found"
    | some [] => Except.error "User not found"
    | some (u :: _) => Except.ok u

/-- `loadAvatar`: the single `fetch(base + "/xlarge")` is abstracted as its
outcome (`none` = failed / non-ok, `some bytes` = body bytes); the source
throws `Avatar fetch failed` on failure and otherwise returns the jpeg data
URI. -/
def loadAvatar (fetchResult : Option (List Nat)) : Except String String :=
  match fetchResult with
  | none => Except.error "Avatar fetch failed"
  | some bytes => Except.ok (toBase64 bytes "image/jpeg")

/- =====================
 * Domain (src/src/index.ts, resolveCourses)
 * ===================== -/

/-- JS truthiness of the optional `learningLanguage` string: `undefined` and
the empty string are falsy. -/
def truthy (s : Option String) : Bool :=
  match s with
  | none => false
  | some str => str != ""

/-- `c.points ?? c.xp ?? 0`. -/
def courseXp (c : DuolingoCourse) : Int :=
  match c.points with
  | some p => p
  | none =>
    match c.xp with
    | some x => x
    | none => 0

/-- The `for (const c of courses)` loop of `resolveCourses`, with the `flags`
array, the `seen` set (as the list of codes in insertion order) and `totalXp`
threaded as accumulators. -/
def processCourses :
    List DuolingoCourse → List Flag → List String → Int →
      List Flag × List String × Int
  | [], flags, seen, totalXp => (flags, seen, totalXp)
  | c :: rest, flags, seen, totalXp =>
    let xp := courseXp c
    if truthy c.learningLanguage then
      let lang := c.learningLanguage.getD ""
      let totalXp2 := totalXp + xp
      if seen.contains lang then
        processCourses rest flags seen totalXp2
      else
        processCourses rest (flags ++ [⟨lang, xp, false⟩])
          (seen ++ [lang]) totalXp2
    else
      processCourses rest flags seen totalXp

/-- The fixed special-code allow-list of `resolveCourses`. -/
def specialCodes : List String := ["zs", "ms", "zc"]

/-- The `if (showSpecial)` loop: append `{ code, xp: 0, special: true }` for
each allow-list code not already seen. -/
def addSpecials (flags : List Flag) (seen : List String) : List Flag :=
  specialCodes.foldl
    (fun fs code =>
      if seen.contains code then fs else fs ++ [⟨code, 0, true⟩])
    flags

def boolNum (b : Bool) : Int := if b then 1 else 0

/-- The JS sort comparator
`(a, b) => a.special !== b.special ? Number(b.special) - Number(a.special) : b.xp - a.xp`. -/
def flagCmp (a b : Flag) : Int :=
  if a.special != b.special then boolNum b.special - boolNum a.special
  else b.xp - a.xp

/-- `a` may be placed before `b` by a stable sort under `flagCmp`
(ES2019 `Array.prototype.sort` is stable; `mergeSort` with this `le`
computes the same stable permutation). -/
def flagLe (a b : Flag) : Bool := decide (flagCmp a b ≤ 0)

/-- `resolveCourses` up to (and including) the in-place sort: the full sorted
flag list, before codes are extracted and truncated. -/
def resolveFlagsFull (courses : List DuolingoCourse) (showSpecial : Bool) :
    List Flag :=
  let r := processCourses courses [] [] 0
  let flags := if showSpecial then addSpecials r.1 r.2.1 else r.1
  flags.mergeSort flagLe

/-- The `totalXp` computed by `resolveCourses`. -/
def resolveTotalXp (courses : List DuolingoCourse) : Int :=
  (processCourses courses [] [] 0).2.2

/-- `resolveCourses`, parameterised by the concatenated course list
`[...(user.languages ?? []), ...(user.courses ?? [])]`. -/
def resolveCoursesList (courses : List DuolingoCourse) (showSpecial : Bool) :
    Int × List String :=
  (resolveTotalXp courses,
    ((resolveFlagsFull courses showSpecial).map Flag.code).take 32)

/-- `resolveCourses(user, showSpecial)`. -/
def resolveCourses (user : DuolingoUser) (showSpecial : Bool) :
    Int × List String :=
  resolveCoursesList ((user.languages.getD []) ++ (user.courses.getD []))
    showSpecial

/- =====================
 * SVG (src/src/index.ts, buildSvg / errorSvg)
 * ===================== -/

structure BuildArgs where
  user : DuolingoUser
  avatar : String
  flags : List String
  totalXp : Int
  theme : String

/-- `args.user.name || args.user.username` (JS `||`: `undefined` and the
empty string fall back to the username). -/
def displayName (user : DuolingoUser) : String :=
  match user.name with
  | some n => if n == "" then user.username else n
  | none => user.username

/-- The `flags` string of `buildSvg`:
`args.flags.map((c, i) => ...).join('')`. -/
def flagsMarkup (codes : List String) : String :=
  String.join (codes.enum.map (fun p =>
    "<text x=\"" ++ toString (20 + p.1 * 12) ++
      "\" y=\"130\" font-size=\"10\">" ++ escapeXml p.2 ++ "</text>"))

/-- The constant head of the `buildSvg` template, up to the first
interpolation (`${color.panel}`). -/
def svgHead : String :=
  "<?xml version=\"1.0\" encoding=\"UTF-8\"?>\n<svg xmlns=\"http://www.w3.org/2000/svg\" width=\"420\" height=\"160\">\n  <rect width=\"100%\" height=\"100%\" rx=\"12\" fill=\""

/-- `buildSvg`. -/
def buildSvg (args : BuildArgs) : String :=
  let dark := args.theme == "dark"
  let panel := if dark then "#020617" else "#f8fafc"
  let fg := if dark then "#e5e7eb" else "#020617"
  let sub := if dark then "#94a3b8" else "#475569"
  let username := escapeXml (displayName args.user)
  let xp := formatNumber args.totalXp
  let flags := flagsMarkup args.flags
  "<?xml version=\"1.0\" encoding=\"UTF-8\"?>\n<svg xmlns=\"http://www.w3.org/2000/svg\" width=\"420\" height=\"160\">\n  <rect width=\"100%\" height=\"100%\" rx=\"12\" fill=\"" ++
    panel ++
    "\"/>\n\n  <image href=\"" ++ args.avatar ++
    "\" x=\"20\" y=\"20\" width=\"48\" height=\"48\" rx=\"24\"/>\n\n  <text x=\"84\" y=\"40\" font-size=\"16\" font-weight=\"700\" fill=\"" ++
    fg ++
    "\" font-family=\"system-ui\">\n    " ++ username ++
    "\n  </text>\n\n  <text x=\"84\" y=\"62\" font-size=\"12\" fill=\"" ++
    sub ++
    "\" font-family=\"system-ui\">\n    Total XP: " ++ xp ++
    "\n  </text>\n\n  " ++ flags ++ "\n</svg>"

/-- Body of `errorSvg`. -/
def errorSvgBody (message : String) : String :=
  "<?xml version=\"1.0\" encoding=\"UTF-8\"?>\n<svg xmlns=\"http://www.w3.org/2000/svg\" width=\"420\" height=\"80\">\n  <rect width=\"100%\" height=\"100%\" rx=\"12\" fill=\"#fee2e2\"/>\n  <text x=\"20\" y=\"46\" font-size=\"14\" fill=\"#991b1b\" font-family=\"system-ui\">\n    " ++
    escapeXml message ++ "\n  </text>\n</svg>"

/-- `errorSvg(c, message, status)`; the route always calls it with the
default `status = 500`. -/
def errorSvg (message : String) (status : Nat) : HttpResponse :=
  ⟨status, errorSvgBody message⟩

/-- The `app.get('/:username/*')` handler after routing: `try { fetchUser;
loadAvatar; resolveCourses; buildSvg; svgResponse } catch (err) {
errorSvg(c, err.message) }`.  A successful `new Response(svg)` has status
200; `errorSvg` is called without a status, so its default 500 applies. -/
def handleRequest (apiRes : Option DuolingoApiResponse)
    (avatarRes : Option (List Nat)) (showSpecial : Bool) (theme : String) :
    HttpResponse :=
  match fetchUser apiRes with
  | Except.error msg => errorSvg msg 500
  | Except.ok user =>
    match loadAvatar avatarRes with
    | Except.error msg => errorSvg msg 500
    | Except.ok avatar =>
      let r := resolveCourses user showSpecial
      ⟨200, buildSvg ⟨user, avatar, r.2, r.1, theme⟩⟩

/- =====================
 * makeSafeId (companion worker in the same file)
 * ===================== -/

/-- Characters matched by the class `[a-zA-Z0-9_-]`. -/
def safeIdChar (c : Char) : Bool :=
  ('a' ≤ c && c ≤ 'z') || ('A' ≤ c && c ≤ 'Z') || ('0' ≤ c && c ≤ '9') ||
    c == '_' || c == '-'

/-- `makeSafeId`: `str.replace(/[^a-zA-Z0-9_-]/g, "_").slice(0, 64)`. -/
def makeSafeId (s : String) : String :=
  String.mk ((s.data.map (fun c => if safeIdChar c then c else '_')).take 64)

/- =====================
 * Observation helpers
 * ===================== -/

/-- Characters significant in XML markup. -/
def markupChars : List Char := ['<', '>', '&', '"', Char.ofNat 39]

/-- Read an attribute value up to the closing quote. -/
def readAttr : List Char → List Char
  | [] => []
  | c :: rest => if c == '"' then [] else c :: readAttr rest

def heightPat : List Char := "height=\"".data

/-- All `height="..."` attribute values of a character stream, in order. -/
def heightAttrs : List Char → List String
  | [] => []
  | c :: rest =>
    if heightPat.isPrefixOf (c :: rest) then
      String.mk (readAttr (List.drop heightPat.length (c :: rest))) ::
        heightAttrs rest
    else heightAttrs rest

/-- The value of the first `height` attribute — the canvas height of an SVG
document whose root element is the first tag carrying one. -/
def canvasHeight (svg : String) : Option String :=
  (heightAttrs svg.data).head?

/-- Sum of `points ?? xp ?? 0` over every entry whose `learningLanguage` is
truthy — what the loop of `resolveCourses` adds into `totalXp`. -/
def sumXpAll : List DuolingoCourse → Int
  | [] => 0
  | c :: rest =>
    (if truthy c.learningLanguage then courseXp c else 0) + sumXpAll rest

/-- The flags appended by `addSpecials`: allow-list codes not yet seen, each
with XP 0 and the special mark, in allow-list order. -/
def specialsToAdd (seen : List String) : List Flag :=
  (specialCodes.filter (fun code => !(seen.contains code))).map
    (fun code => ⟨code, 0, true⟩)

/- =====================
 * Concrete inputs used in examples
 * ===================== -/

def esCourse : DuolingoCourse := ⟨some "es", some "en", some 1500, none⟩
def frCourse : DuolingoCourse := ⟨some "fr", some "en", some 300, none⟩
def deCourse0 : DuolingoCourse := ⟨some "de", some "en", some 0, none⟩
def noLangCourse : DuolingoCourse := ⟨none, some "en", some 999, none⟩

def demoUser : DuolingoUser := ⟨"wojicle", none, "//pic", none, none, none⟩

def svgArgs (flags : List String) : BuildArgs :=
  ⟨demoUser, "data:image/jpeg;base64,", flags, 300, "light"⟩

/- =====================
 * Lemmas about the course loop
 * ===================== -/

/-- One unfolding step of the course loop, as an equation usable by `rw`. -/
theorem processCourses_cons (c : DuolingoCourse) (rest : List DuolingoCourse)
    (f : List Flag) (s : List String) (t : Int) :
    processCourses (c :: rest) f s t =
      if truthy c.learningLanguage then
        if s.contains (c.learningLanguage.getD "") then
          processCourses rest f s (t + courseXp c)
        else
          processCourses rest
            (f ++ [⟨c.learningLanguage.getD "", courseXp c, false⟩])
            (s ++ [c.learningLanguage.getD ""]) (t + courseXp c)
      else processCourses rest f s t := rfl

theorem processCourses_totalXp (cs : List DuolingoCourse) :
    ∀ (f : List Flag) (s : List String) (t : Int),
      (processCourses cs f s t).2.2 = t + sumXpAll cs := by
  induction cs with
  | nil => intro f s t; simp [processCourses, sumXpAll]
  | cons c rest ih =>
    intro f s t
    rw [processCourses_cons]
    by_cases h : truthy c.learningLanguage
    · rw [if_pos h]
      by_cases h2 : s.contains (c.learningLanguage.getD "")
      · rw [if_pos h2, ih]; simp [sumXpAll, h]; omega
      · rw [if_neg h2, ih]; simp [sumXpAll, h]; omega
    · rw [if_neg h, ih]
      simp [sumXpAll, h]

theorem processCourses_skip (pre : List DuolingoCourse) (c : DuolingoCourse)
    (post : List DuolingoCourse) (h : truthy c.learningLanguage = false) :
    ∀ (f : List Flag) (s : List String) (t : Int),
      processCourses (pre ++ c :: post) f s t =
        processCourses (pre ++ post) f s t := by
  induction pre with
  | nil =>
    intro f s t
    rw [List.nil_append, List.nil_append, processCourses_cons, if_neg]
    simp [h]
  | cons d rest ih =>
    intro f s t
    rw [List.cons_append, List.cons_append, processCourses_cons,
      processCourses_cons]
    by_cases hd : truthy d.learningLanguage
    · rw [if_pos hd, if_pos hd]
      by_cases hc : s.contains (d.learningLanguage.getD "")
      · rw [if_pos hc, if_pos hc, ih]
      · rw [if_neg hc, if_neg hc, ih]
    · rw [if_neg hd, if_neg hd, ih]

theorem processCourses_seen_extend (cs : List DuolingoCourse) :
    ∀ (f : List Flag) (s : List String) (t : Int),
      ∃ s2, (processCourses cs f s t).2.1 = s ++ s2 := by
  induction cs with
  | nil => intro f s t; exact ⟨[], by simp [processCourses]⟩
  | cons c rest ih =>
    intro f s t
    rw [processCourses_cons]
    by_cases h : truthy c.learningLanguage
    · rw [if_pos h]
      by_cases h2 : s.contains (c.learningLanguage.getD "")
      · rw [if_pos h2]; exact ih f s (t + courseXp c)
      · rw [if_neg h2]
        obtain ⟨s2, hs⟩ :=
          ih (f ++ [⟨c.learningLanguage.getD "", courseXp c, false⟩])
            (s ++ [c.learningLanguage.getD ""]) (t + courseXp c)
        refine ⟨c.learningLanguage.getD "" :: s2, ?_⟩
        rw [hs, List.append_assoc, List.singleton_append]
    · rw [if_neg h]; exact ih f s t

theorem processCourses_seen_complete (cs : List DuolingoCourse) :
    ∀ (f : List Flag) (s : List String) (t : Int) (c : DuolingoCourse),
      c ∈ cs → truthy c.learningLanguage = true →
        c.learningLanguage.getD "" ∈ (processCourses cs f s t).2.1 := by
  induction cs with
  | nil => intro f s t c hc; cases hc
  | cons d rest ih =>
    intro f s t c hc htr
    rcases List.mem_cons.mp hc with rfl | hmem
    · rw [processCourses_cons, if_pos htr]
      by_cases h2 : s.contains (c.learningLanguage.getD "")
      · have hmem2 : c.learningLanguage.getD "" ∈ s := List.elem_iff.mp h2
        rw [if_pos h2]
        obtain ⟨s2, hs⟩ := processCourses_seen_extend rest f s (t + courseXp c)
        rw [hs]
        exact List.mem_append_left _ hmem2
      · rw [if_neg h2]
        obtain ⟨s2, hs⟩ :=
          processCourses_seen_extend rest
            (f ++ [⟨c.learningLanguage.getD "", courseXp c, false⟩])
            (s ++ [c.learningLanguage.getD ""]) (t + courseXp c)
        rw [hs, List.append_assoc]
        refine List.mem_append_right _ (List.mem_append_left _ ?_)
        exact List.mem_singleton.mpr rfl
    · rw [processCourses_cons]
      by_cases h : truthy d.learningLanguage
      · rw [if_pos h]
        by_cases h2 : s.contains (d.learningLanguage.getD "")
        · rw [if_pos h2]; exact ih _ _ _ c hmem htr
        · rw [if_neg h2]; exact ih _ _ _ c hmem htr
      · rw [if_neg h]; exact ih _ _ _ c hmem htr

theorem processCourses_codes (cs : List DuolingoCourse) :
    ∀ (f : List Flag) (s : List String) (t : Int),
      f.map Flag.code = s →
        (processCourses cs f s t).1.map Flag.code =
          (processCourses cs f s t).2.1 := by
  induction cs with
  | nil => intro f s t hfs; simpa [processCourses] using hfs
  | cons c rest ih =>
    intro f s t hfs
    rw [processCourses_cons]
    by_cases h : truthy c.learningLanguage
    · rw [if_pos h]
      by_cases h2 : s.contains (c.learningLanguage.getD "")
      · rw [if_pos h2]; exact ih f s _ hfs
      · rw [if_neg h2]; exact ih _ _ _ (by simp [hfs])
    · rw [if_neg h]; exact ih f s t hfs

/- =====================
 * Claim C1
 * ===================== -/

/-- Claim C1 counterexample: the course list with the entry
`("es","en",1500)` twice yields `totalXp = 3000`, not the claimed 1500 —
the aggregator sums every entry, it never collapses duplicate
`(learningLanguage, fromLanguage)` pairs to a per-pair maximum. -/
theorem C1_counterexample :
    (resolveCoursesList [esCourse, esCourse] false).1 = 3000 ∧
    (resolveCoursesList [esCourse, esCourse] false).1 ≠ 1500 := by
  constructor <;> decide

/-- Claim C1 (amended): for every input course list, `totalXp` equals the
plain sum of `points ?? xp ?? 0` over all entries with a truthy
`learningLanguage` — duplicated entries for one pair are summed, not
collapsed to a maximum. -/
theorem C1_amended (courses : List DuolingoCourse) (showSpecial : Bool) :
    (resolveCoursesList courses showSpecial).1 = sumXpAll courses := by
  have := processCourses_totalXp courses [] [] 0
  simpa [resolveCoursesList, resolveTotalXp] using this

/-- Witness for C1 (amended) at a concrete input. -/
theorem C1_amended_witness :
    (resolveCoursesList [esCourse, esCourse] false).1 =
      sumXpAll [esCourse, esCourse] :=
  C1_amended [esCourse, esCourse] false

/- =====================
 * Claim C2
 * ===================== -/

/-- Claim C2 counterexample: for `[("fr","en",300), ("de","en",0)]` with
`includeSpecial = false` the badge list is `["fr","de"]`, not `["fr"]` —
there is no `xp > 0` guard, so the zero-XP course also contributes a
badge. -/
theorem C2_counterexample :
    (resolveCoursesList [frCourse, deCourse0] false).2 ≠ ["fr"] ∧
    (resolveCoursesList [frCourse, deCourse0] false).2 = ["fr", "de"] := by
  have h : (resolveCoursesList [frCourse, deCourse0] false).2 = ["fr", "de"] := by
    simp [resolveCoursesList, resolveFlagsFull, resolveTotalXp, processCourses,
      courseXp, truthy, frCourse, deCourse0, flagLe, flagCmp, boolNum,
      List.mergeSort, List.splitInTwo, List.splitAt_eq, List.merge]
  exact ⟨by rw [h]; decide, h⟩

/-- Claim C2 (amended): every course entry with a truthy
`learningLanguage`, whatever its XP (including 0), contributes a real badge
candidate for its language; in particular
`[("fr","en",300), ("de","en",0)]` with `includeSpecial = false` yields the
badge list `["fr", "de"]`. -/
theorem C2_amended :
    (resolveCoursesList [frCourse, deCourse0] false).2 = ["fr", "de"] ∧
    ∀ (courses : List DuolingoCourse) (c : DuolingoCourse),
      c ∈ courses → truthy c.learningLanguage = true →
        c.learningLanguage.getD "" ∈
          ((processCourses courses [] [] 0).1.map Flag.code) := by
  constructor
  · simp [resolveCoursesList, resolveFlagsFull, resolveTotalXp, processCourses,
      courseXp, truthy, frCourse, deCourse0, flagLe, flagCmp, boolNum,
      List.mergeSort, List.splitInTwo, List.splitAt_eq, List.merge]
  · intro courses c hc htr
    rw [processCourses_codes courses [] [] 0 rfl]
    exact processCourses_seen_complete courses [] [] 0 c hc htr

/-- Witness for C2 (amended): the zero-XP course `("de","en",0)` does get a
badge candidate. -/
theorem C2_amended_witness :
    "de" ∈ ((processCourses [frCourse, deCourse0] [] [] 0).1.map Flag.code) :=
  C2_amended.2 [frCourse, deCourse0] deCourse0 (by decide) (by decide)

/- =====================
 * Claim C9
 * ===================== -/

/-- Claim C9: a course entry whose `learningLanguage` is absent is skipped
entirely by `resolveCourses` — dropping it from the course list changes
neither `totalXp` nor the badge list, whatever XP it carries. -/
theorem C9_skip (pre post : List DuolingoCourse) (c : DuolingoCourse)
    (showSpecial : Bool) (h : c.learningLanguage = none) :
    resolveCoursesList (pre ++ c :: post) showSpecial =
      resolveCoursesList (pre ++ post) showSpecial := by
  have ht : truthy c.learningLanguage = false := by rw [h]; rfl
  simp only [resolveCoursesList, resolveTotalXp, resolveFlagsFull,
    processCourses_skip pre c post ht]

/-- Witness for C9 at a concrete input: an entry with no language code but
999 points contributes nothing. -/
theorem C9_skip_witness :
    resolveCoursesList [frCourse, noLangCourse] false =
      resolveCoursesList [frCourse] false :=
  C9_skip [frCourse] [] noLangCourse false rfl

/- =====================
 * Claim C5
 * ===================== -/

/-- Claim C5 counterexample: when the upstream has no user record (an ok
response with an empty `users` array), the response status is 500, not the
claimed 404. -/
theorem C5_counterexample :
    (handleRequest (some ⟨some []⟩) none false "light").status = 500 ∧
    (handleRequest (some ⟨some []⟩) none false "light").status ≠ 404 := by
  constructor <;> decide

/-- Claim C5 (amended): when the upstream has no user record — whether the
profile endpoint answers non-ok or returns an empty `users` array — the
handler responds with status 500 and the error-image body for the fixed
message `User not found` (the requested identifier is not interpolated). -/
theorem C5_amended (avatarRes : Option (List Nat)) (showSpecial : Bool)
    (theme : String) :
    handleRequest none avatarRes showSpecial theme =
      ⟨500, errorSvgBody "User not found"⟩ ∧
    handleRequest (some ⟨some []⟩) avatarRes showSpecial theme =
      ⟨500, errorSvgBody "User not found"⟩ :=
  ⟨rfl, rfl⟩

/- =====================
 * Claim C6
 * ===================== -/

/-- Claim C6 counterexample: when the user exists but the avatar fetch
fails, the response has status 500 with the `Avatar fetch failed` error
image — not the claimed 200 with a placeholder avatar. -/
theorem C6_counterexample :
    (handleRequest (some ⟨some [demoUser]⟩) none false "light").status = 500 ∧
    (handleRequest (some ⟨some [demoUser]⟩) none false "light").status ≠ 200 ∧
    (handleRequest (some ⟨some [demoUser]⟩) none false "light").body =
      errorSvgBody "Avatar fetch failed" := by
  refine ⟨rfl, by decide, rfl⟩

/-- Claim C6 (amended): a failed avatar fetch fails the whole request: for
any existing user record, if the single avatar fetch fails the handler
answers with status 500 and the `Avatar fetch failed` error image; no placeholder
avatar exists. -/
theorem C6_amended (user : DuolingoUser) (rest : List DuolingoUser)
    (showSpecial : Bool) (theme : String) :
    handleRequest (some ⟨some (user :: rest)⟩) none showSpecial theme =
      ⟨500, errorSvgBody "Avatar fetch failed"⟩ :=
  rfl

/- =====================
 * Claim C10
 * ===================== -/

/-- Characters accepted by `makeSafeId` are never markup-significant. -/
theorem safeIdChar_not_markup (c : Char) (h : safeIdChar c = true) :
    markupChars.contains c = false := by
  cases hx : markupChars.contains c
  · rfl
  · exfalso
    have hc2 : c ∈ markupChars := List.elem_iff.mp hx
    simp only [markupChars, List.mem_cons, List.not_mem_nil, or_false] at hc2
    rcases hc2 with rfl | rfl | rfl | rfl | rfl <;> exact absurd h (by decide)

/-- Every character of a `makeSafeId` result is in the allowed class. -/
theorem makeSafeId_all_safe (s : String) :
    ∀ c ∈ (makeSafeId s).data, safeIdChar c = true := by
  intro c hc
  have hc1 : c ∈ (s.data.map (fun c => if safeIdChar c then c else '_')).take 64 := hc
  have hc2 : c ∈ s.data.map (fun c => if safeIdChar c then c else '_') :=
    List.mem_of_mem_take hc1
  obtain ⟨d, hd, rfl⟩ := List.mem_map.mp hc2
  by_cases hsafe : safeIdChar d
  · rw [if_pos hsafe]; exact hsafe
  · rw [if_neg hsafe]; decide

/-- Claim C10: for every input string, `makeSafeId` returns at most 64
characters, all of them ASCII letters, digits, underscore or hyphen — in
particular never one of the five markup-significant characters, so the
element identifiers interpolated into the generated markup are inert. -/
theorem C10_makeSafeId (s : String) :
    (makeSafeId s).length ≤ 64 ∧
    (makeSafeId s).data.all safeIdChar = true ∧
    (makeSafeId s).data.all (fun c => !(markupChars.contains c)) = true := by
  refine ⟨?_, ?_, ?_⟩
  · have h : (makeSafeId s).length =
        ((s.data.map (fun c => if safeIdChar c then c else '_')).take 64).length :=
      rfl
    rw [h, List.length_take]
    exact Nat.min_le_left _ _
  · rw [List.all_eq_true]
    exact makeSafeId_all_safe s
  · rw [List.all_eq_true]
    intro c hc
    have h1 := makeSafeId_all_safe s c hc
    rw [safeIdChar_not_markup c h1]
    rfl

/- =====================
 * Claim C8
 * ===================== -/

theorem escapeXml_data (s : String) :
    (escapeXml s).data = ((s.data.map escapeChar).map String.data).flatten := by
  simp [escapeXml, String.join_eq]

theorem escapeXml_append (s t : String) :
    escapeXml (s ++ t) = escapeXml s ++ escapeXml t := by
  apply String.ext
  simp [escapeXml_data, String.data_append, List.map_append, List.flatten_append]

theorem escapeXml_singleton (c : Char) :
    escapeXml (String.singleton c) = escapeChar c := by
  apply String.ext
  simp [escapeXml_data]

/-- The `buildSvg` template, re-associated to expose the interpolation
slots: constant head, then panel colour, avatar, name, XP and flags. -/
theorem buildSvg_decomp (args : BuildArgs) :
    buildSvg args =
      svgHead ++
        ((if args.theme == "dark" then "#020617" else "#f8fafc") ++
          ("\"/>\n\n  <image href=\"" ++ (args.avatar ++
            ("\" x=\"20\" y=\"20\" width=\"48\" height=\"48\" rx=\"24\"/>\n\n  <text x=\"84\" y=\"40\" font-size=\"16\" font-weight=\"700\" fill=\"" ++
              ((if args.theme == "dark" then "#e5e7eb" else "#020617") ++
                ("\" font-family=\"system-ui\">\n    " ++
                  (escapeXml (displayName args.user) ++
                    ("\n  </text>\n\n  <text x=\"84\" y=\"62\" font-size=\"12\" fill=\"" ++
                      ((if args.theme == "dark" then "#94a3b8" else "#475569") ++
                        ("\" font-family=\"system-ui\">\n    Total XP: " ++
                          (formatNumber args.totalXp ++
                            ("\n  </text>\n\n  " ++
                              (flagsMarkup args.flags ++
                                "\n</svg>"))))))))))))) := by
  simp only [buildSvg, svgHead, String.append_assoc]

/-- Claim C8: `escapeXml` maps each of the five reserved markup characters
to its entity, leaves every other character unchanged, distributes over
concatenation (so every occurrence is replaced), and `buildSvg` embeds the
display name only through `escapeXml`. -/
theorem C8_escape :
    escapeXml "<" = "&lt;" ∧ escapeXml ">" = "&gt;" ∧ escapeXml "&" = "&amp;" ∧
    escapeXml "\"" = "&quot;" ∧
    escapeXml (String.singleton aposChar) = "&apos;" ∧
    (∀ s t, escapeXml (s ++ t) = escapeXml s ++ escapeXml t) ∧
    (∀ c, c ∉ markupChars → escapeXml (String.singleton c) = String.singleton c) ∧
    (∀ args : BuildArgs, ∃ pre post,
      buildSvg args = pre ++ escapeXml (displayName args.user) ++ post) := by
  refine ⟨by decide, by decide, by decide, by decide, by decide,
    escapeXml_append, ?_, ?_⟩
  · intro c hc
    rw [escapeXml_singleton]
    simp only [markupChars, List.mem_cons, List.not_mem_nil, or_false,
      not_or] at hc
    obtain ⟨h1, h2, h3, h4, h5⟩ := hc
    simp [escapeChar, aposChar, h1, h2, h3, h4, h5]
  · intro args
    refine ⟨svgHead ++
      ((if args.theme == "dark" then "#020617" else "#f8fafc") ++
        ("\"/>\n\n  <image href=\"" ++ (args.avatar ++
          ("\" x=\"20\" y=\"20\" width=\"48\" height=\"48\" rx=\"24\"/>\n\n  <text x=\"84\" y=\"40\" font-size=\"16\" font-weight=\"700\" fill=\"" ++
            ((if args.theme == "dark" then "#e5e7eb" else "#020617") ++
              "\" font-family=\"system-ui\">\n    "))))),
      "\n  </text>\n\n  <text x=\"84\" y=\"62\" font-size=\"12\" fill=\"" ++
        ((if args.theme == "dark" then "#94a3b8" else "#475569") ++
          ("\" font-family=\"system-ui\">\n    Total XP: " ++
            (formatNumber args.totalXp ++
              ("\n  </text>\n\n  " ++
                (flagsMarkup args.flags ++ "\n</svg>"))))), ?_⟩
    rw [buildSvg_decomp]
    simp only [String.append_assoc]

/-- Witness for C8 at a concrete character: `a` is not markup-significant
and passes through `escapeXml` unchanged. -/
theorem C8_escape_witness :
    escapeXml (String.singleton 'a') = String.singleton 'a' :=
  C8_escape.2.2.2.2.2.2.1 'a' (by decide)

/- =====================
 * Claim C7
 * ===================== -/

/-- Claim C7 counterexample: the canvas height of the rendered card is the
same (`160`) for 0, 1 and 11 badges — the claim requires the 11-badge card
to be one 30-unit row taller than the 1-badge card, so height is not the
claimed function of badge count. -/
theorem C7_counterexample :
    canvasHeight (buildSvg (svgArgs [])) = some "160" ∧
    canvasHeight (buildSvg (svgArgs ["fr"])) = some "160" ∧
    canvasHeight (buildSvg (svgArgs
      ["fr", "de", "es", "it", "pt", "ja", "ko", "zh", "ru", "ar", "tr"])) =
      some "160" := by
  refine ⟨by decide, by decide, by decide⟩

/-- Claim C7 (amended): the canvas height is the fixed 160 of the constant
template head, independent of badge count, and badges are rendered as a
single row of text glyphs at `x = 20 + 12·i`, `y = 130`, not in a 10-column
icon grid. -/
theorem C7_amended :
    (∀ args : BuildArgs, ∃ rest, buildSvg args = svgHead ++ rest) ∧
    (heightAttrs svgHead.data).head? = some "160" ∧
    flagsMarkup ["fr", "de", "es"] =
      "<text x=\"20\" y=\"130\" font-size=\"10\">fr</text><text x=\"32\" y=\"130\" font-size=\"10\">de</text><text x=\"44\" y=\"130\" font-size=\"10\">es</text>" := by
  refine ⟨?_, by decide, by decide⟩
  intro args
  exact ⟨_, buildSvg_decomp args⟩

/- =====================
 * Lemmas about the badge sort
 * ===================== -/

theorem addSpecials_eq (flags : List Flag) (seen : List String) :
    addSpecials flags seen = flags ++ specialsToAdd seen := by
  unfold addSpecials specialsToAdd specialCodes
  by_cases h1 : "zs" ∈ seen <;> by_cases h2 : "ms" ∈ seen <;>
    by_cases h3 : "zc" ∈ seen <;>
      simp [h1, h2, h3, List.filter_cons, List.foldl_cons, List.foldl_nil]

theorem processCourses_seen_nodup (cs : List DuolingoCourse) :
    ∀ (f : List Flag) (s : List String) (t : Int),
      s.Nodup → (processCourses cs f s t).2.1.Nodup := by
  induction cs with
  | nil => intro f s t h; simpa [processCourses] using h
  | cons c rest ih =>
    intro f s t h
    rw [processCourses_cons]
    by_cases htr : truthy c.learningLanguage
    · rw [if_pos htr]
      by_cases h2 : s.contains (c.learningLanguage.getD "")
      · rw [if_pos h2]; exact ih f s _ h
      · rw [if_neg h2]
        refine ih _ _ _ ?_
        have hnm : c.learningLanguage.getD "" ∉ s := by
          intro hm
          exact h2 (List.elem_eq_true_of_mem hm)
        rw [List.nodup_append]
        refine ⟨h, List.nodup_singleton _, ?_⟩
        intro a ha hb
        rw [List.mem_singleton.mp hb] at ha
        exact hnm ha
    · rw [if_neg htr]; exact ih f s t h

theorem processCourses_real (cs : List DuolingoCourse) :
    ∀ (f : List Flag) (s : List String) (t : Int),
      (∀ x ∈ f, x.special = false) →
        ∀ x ∈ (processCourses cs f s t).1, x.special = false := by
  induction cs with
  | nil => intro f s t hf; simpa [processCourses] using hf
  | cons c rest ih =>
    intro f s t hf
    rw [processCourses_cons]
    by_cases htr : truthy c.learningLanguage
    · rw [if_pos htr]
      by_cases h2 : s.contains (c.learningLanguage.getD "")
      · rw [if_pos h2]; exact ih f s _ hf
      · rw [if_neg h2]
        refine ih _ _ _ ?_
        intro x hx
        rcases List.mem_append.mp hx with hx1 | hx2
        · exact hf x hx1
        · rw [List.mem_singleton.mp hx2]
    · rw [if_neg htr]; exact ih f s t hf

theorem flagLe_total (a b : Flag) : (flagLe a b || flagLe b a) = true := by
  simp only [flagLe, flagCmp, boolNum, Bool.or_eq_true, decide_eq_true_eq]
  cases ha : a.special <;> cases hb : b.special <;> simp_all <;> omega

theorem flagLe_trans (a b c : Flag) (h1 : flagLe a b = true)
    (h2 : flagLe b c = true) : flagLe a c = true := by
  simp only [flagLe, flagCmp, boolNum, decide_eq_true_eq] at h1 h2 ⊢
  cases ha : a.special <;> cases hb : b.special <;> cases hc : c.special <;>
    simp_all <;> omega

theorem specialsToAdd_special (seen : List String) :
    ∀ x ∈ specialsToAdd seen, x.special = true ∧ x.xp = 0 := by
  intro x hx
  obtain ⟨code, hc, rfl⟩ := List.mem_map.mp hx
  exact ⟨rfl, rfl⟩

theorem specialsToAdd_pairwise (seen : List String) :
    (specialsToAdd seen).Pairwise (fun a b => flagLe a b = true) := by
  apply List.pairwise_of_forall_mem_list
  intro a ha b hb
  obtain ⟨ha1, ha2⟩ := specialsToAdd_special seen a ha
  obtain ⟨hb1, hb2⟩ := specialsToAdd_special seen b hb
  simp [flagLe, flagCmp, boolNum, ha1, ha2, hb1, hb2]

theorem specialsToAdd_codes (seen : List String) :
    (specialsToAdd seen).map Flag.code =
      specialCodes.filter (fun code => !(seen.contains code)) := by
  simp [specialsToAdd, List.map_map, Function.comp_def]

/-- A list in which no element failing `p` precedes one satisfying `p`
splits as its `p`-part followed by its non-`p`-part. -/
theorem filter_decomp {α : Type} (p : α → Bool) :
    ∀ l : List α, l.Pairwise (fun a b => p b = true → p a = true) →
      l = l.filter p ++ l.filter (fun x => !p x) := by
  intro l
  induction l with
  | nil => intro; rfl
  | cons h t ih =>
    intro hp
    rw [List.pairwise_cons] at hp
    obtain ⟨hhead, htail⟩ := hp
    by_cases hph : p h
    · rw [List.filter_cons_of_pos hph, List.filter_cons_of_neg (by simp [hph]),
        List.cons_append]
      congr 1
      exact ih htail
    · have hnone : ∀ a ∈ t, ¬p a = true := fun a ha hpa => hph (hhead a ha hpa)
      have hself : t.filter (fun x => !p x) = t :=
        List.filter_eq_self.mpr (fun a ha => by simp [hnone a ha])
      rw [List.filter_cons_of_neg hph, List.filter_cons_of_pos (by simp [hph]),
        List.filter_eq_nil_iff.mpr hnone, List.nil_append, hself]

/- =====================
 * Claim C4
 * ===================== -/

/-- Codes of the flag list handed to the sort are pairwise distinct. -/
theorem preFlags_codes_nodup (courses : List DuolingoCourse)
    (showSpecial : Bool) :
    ((if showSpecial then
        addSpecials (processCourses courses [] [] 0).1
          (processCourses courses [] [] 0).2.1
      else (processCourses courses [] [] 0).1).map Flag.code).Nodup := by
  have hseen := processCourses_seen_nodup courses [] [] 0 List.nodup_nil
  have hcodes := processCourses_codes courses [] [] 0 rfl
  by_cases hs : showSpecial
  · rw [if_pos hs, addSpecials_eq, List.map_append, hcodes, specialsToAdd_codes,
      List.nodup_append]
    refine ⟨hseen, (show specialCodes.Nodup by decide).filter _, ?_⟩
    intro a ha hb
    have h2 := List.of_mem_filter hb
    simp at h2
    exact h2 ha
  · rw [if_neg hs, hcodes]
    exact hseen

/-- Claim C4: for every course list and every value of the special flag,
the badge selection has length at most 50 and contains no language code
twice. -/
theorem C4_invariant (courses : List DuolingoCourse) (showSpecial : Bool) :
    (resolveCoursesList courses showSpecial).2.length ≤ 50 ∧
    (resolveCoursesList courses showSpecial).2.Nodup := by
  have hdef : resolveFlagsFull courses showSpecial =
      (if showSpecial then
        addSpecials (processCourses courses [] [] 0).1
          (processCourses courses [] [] 0).2.1
      else (processCourses courses [] [] 0).1).mergeSort flagLe := rfl
  constructor
  · have h : (resolveCoursesList courses showSpecial).2.length =
        (((resolveFlagsFull courses showSpecial).map Flag.code).take 32).length :=
      rfl
    rw [h, List.length_take]
    exact le_trans (Nat.min_le_left _ _) (by omega)
  · have hperm :
        List.Perm ((resolveFlagsFull courses showSpecial).map Flag.code)
          ((if showSpecial then
            addSpecials (processCourses courses [] [] 0).1
              (processCourses courses [] [] 0).2.1
          else (processCourses courses [] [] 0).1).map Flag.code) := by
      rw [hdef]
      exact (List.mergeSort_perm _ _).map _
    have hnd : ((resolveFlagsFull courses showSpecial).map Flag.code).Nodup :=
      hperm.symm.nodup (preFlags_codes_nodup courses showSpecial)
    exact (List.take_sublist 32 _).nodup hnd

/- =====================
 * Claim C3
 * ===================== -/

/-- Claim C3 counterexample: for the single real course `("fr","en",300)`
with specials requested, the selection is `["zs","ms","zc","fr"]` — the
three specials come first, not after the real badge, and every stored flag
carries XP `0` or `300`, never the claimed sentinel `-1`. -/
theorem C3_counterexample :
    (resolveCoursesList [frCourse] true).2 ≠ ["fr", "zs", "ms", "zc"] ∧
    resolveFlagsFull [frCourse] true =
      [⟨"zs", 0, true⟩, ⟨"ms", 0, true⟩, ⟨"zc", 0, true⟩, ⟨"fr", 300, false⟩] ∧
    (resolveFlagsFull [frCourse] true).all (fun f => f.xp != -1) = true := by
  have h : resolveFlagsFull [frCourse] true =
      [⟨"zs", 0, true⟩, ⟨"ms", 0, true⟩, ⟨"zc", 0, true⟩, ⟨"fr", 300, false⟩] := by
    simp [resolveFlagsFull, processCourses, courseXp, truthy, frCourse,
      addSpecials, specialCodes, flagLe, flagCmp, boolNum,
      List.mergeSort, List.splitInTwo, List.splitAt_eq, List.merge]
  have h2 : (resolveCoursesList [frCourse] true).2 =
      ((resolveFlagsFull [frCourse] true).map Flag.code).take 32 := rfl
  refine ⟨?_, h, by rw [h]; decide⟩
  rw [h2, h]
  decide

/-- Claim C3 (amended): with specials requested, the sorted flag list is
its special part followed by its real part — every special badge precedes
every real badge — and the special part is exactly the allow-list codes not
already seen, in allow-list order, each carrying XP 0 (not −1). -/
theorem C3_amended (courses : List DuolingoCourse) :
    (resolveFlagsFull courses true =
      (resolveFlagsFull courses true).filter Flag.special ++
        (resolveFlagsFull courses true).filter (fun f => !f.special)) ∧
    (resolveFlagsFull courses true).filter Flag.special =
      specialsToAdd (processCourses courses [] [] 0).2.1 := by
  have hdef : resolveFlagsFull courses true =
      (addSpecials (processCourses courses [] [] 0).1
        (processCourses courses [] [] 0).2.1).mergeSort flagLe := rfl
  have hsorted :
      ((addSpecials (processCourses courses [] [] 0).1
        (processCourses courses [] [] 0).2.1).mergeSort flagLe).Pairwise
        (fun a b => flagLe a b = true) :=
    List.sorted_mergeSort flagLe_trans flagLe_total _
  have himp : ∀ a b : Flag, flagLe a b = true →
      (Flag.special b = true → Flag.special a = true) := by
    intro a b hle hb
    cases ha : a.special
    · exfalso
      simp [flagLe, flagCmp, boolNum, ha, hb] at hle
    · rfl
  have hdecomp :=
    filter_decomp Flag.special _ (hsorted.imp (fun {a b} h => himp a b h))
  have hst := addSpecials_eq (processCourses courses [] [] 0).1
    (processCourses courses [] [] 0).2.1
  have hsubpre : List.Sublist (specialsToAdd (processCourses courses [] [] 0).2.1)
      (addSpecials (processCourses courses [] [] 0).1
        (processCourses courses [] [] 0).2.1) := by
    rw [hst]
    exact List.sublist_append_right _ _
  have hsub :=
    List.sublist_mergeSort flagLe_trans flagLe_total
      (specialsToAdd_pairwise (processCourses courses [] [] 0).2.1) hsubpre
  have hallsp : ∀ x ∈ specialsToAdd (processCourses courses [] [] 0).2.1,
      Flag.special x = true :=
    fun x hx => (specialsToAdd_special _ x hx).1
  have hsub2 : List.Sublist (specialsToAdd (processCourses courses [] [] 0).2.1)
      (((addSpecials (processCourses courses [] [] 0).1
        (processCourses courses [] [] 0).2.1).mergeSort flagLe).filter
        Flag.special) := by
    have h1 := hsub.filter Flag.special
    rwa [List.filter_eq_self.mpr hallsp] at h1
  have hrealnone : (processCourses courses [] [] 0).1.filter Flag.special = [] :=
    List.filter_eq_nil_iff.mpr
      (fun a ha => by
        simp [processCourses_real courses [] [] 0 (by simp) a ha])
  have hfpre : (addSpecials (processCourses courses [] [] 0).1
      (processCourses courses [] [] 0).2.1).filter Flag.special =
        specialsToAdd (processCourses courses [] [] 0).2.1 := by
    rw [hst, List.filter_append, hrealnone, List.nil_append,
      List.filter_eq_self.mpr hallsp]
  have hpermf :
      List.Perm
        (((addSpecials (processCourses courses [] [] 0).1
          (processCourses courses [] [] 0).2.1).mergeSort flagLe).filter
          Flag.special)
        ((addSpecials (processCourses courses [] [] 0).1
          (processCourses courses [] [] 0).2.1).filter Flag.special) :=
    (List.mergeSort_perm _ _).filter _
  have hlen :
      (((addSpecials (processCourses courses [] [] 0).1
        (processCourses courses [] [] 0).2.1).mergeSort flagLe).filter
        Flag.special).length =
      (specialsToAdd (processCourses courses [] [] 0).2.1).length := by
    rw [hpermf.length_eq, hfpre]
  have heq := hsub2.eq_of_length hlen.symm
  constructor
  · rw [hdef]
    exact hdecomp
  · rw [hdef]
    exact heq.symm

end DuolingoCard
